import Mathlib

/-!
Verification of the GuideSignal matching core: a shallow embedding of
`foundational_model.py` (scoring engine, subscores, clustering and targeting
boosts) and `learn_weights.py` (weight learner) with theorems settling the
specification claims.  Machine reals are modelled by exact rationals; the
IEEE behaviours that matter (NaN from 0/0) get an explicit value type.
-/

set_option autoImplicit false

/-! ### String helpers modelling Python string primitives -/

/-- Models Python `str.lower` (ASCII case folding via `Char.toLower`). -/
def pyLower (s : String) : String := ⟨s.data.map Char.toLower⟩

/-- Models Python `str.strip`: drop leading and trailing whitespace. -/
def pyStrip (s : String) : String :=
  ⟨((s.data.dropWhile Char.isWhitespace).reverse.dropWhile Char.isWhitespace).reverse⟩

/-- Models `_norm_text` in `foundational_model.py`: `(x or "").strip().lower()`. -/
def norm_text (x : String) : String := pyLower (pyStrip x)

/-- Does the character list start with the given pattern list? -/
def listStartsWith : List Char → List Char → Bool
  | _, [] => true
  | [], _ :: _ => false
  | x :: xs, y :: ys => if x = y then listStartsWith xs ys else false

/-- Does the character list contain the pattern as a contiguous run? -/
def listContainsSeq : List Char → List Char → Bool
  | [], ys => ys.isEmpty
  | x :: xs, ys => listStartsWith (x :: xs) ys || listContainsSeq xs ys

/-- Models Python `needle in hay` substring containment. -/
def strContainsSub (hay needle : String) : Bool := listContainsSeq hay.data needle.data

/-- Helper for `pyWords`: accumulate the current word (reversed) while scanning. -/
def wordsAux : List Char → List Char → List (List Char)
  | [], acc => if acc.isEmpty then [] else [acc.reverse]
  | c :: rest, acc =>
      if c.isWhitespace then
        if acc.isEmpty then wordsAux rest [] else acc.reverse :: wordsAux rest []
      else wordsAux rest (c :: acc)

/-- Models Python `str.split()` with no argument: split on whitespace runs,
dropping empty tokens. -/
def pyWords (s : String) : List String := (wordsAux s.data []).map (fun l => ⟨l⟩)

/-! ### SkillMatcher: `req_score` (TF-IDF fallback path of the source) -/

/-- Models `req_score` in `foundational_model.py` (fallback branch, lines
136-170): empty must-have list gives 1.0; empty normalized applicant text
gives 0.0; otherwise count the non-empty must-have strings contained verbatim
in the lowercased applicant text and divide by `max(len(must_haves), 1)`. -/
def req_score (applicant_text : String) (must_haves : List String) : ℚ :=
  if must_haves = [] then 1
  else
    let atext := norm_text applicant_text
    if atext = "" then 0
    else
      let hits := (must_haves.filter (fun m => m ≠ "" && strContainsSub atext m)).length
      (hits : ℚ) / ((max must_haves.length 1 : ℕ) : ℚ)

/-- Stated from the specification's words, for comparison with `req_score`:
the fraction of required skills met where met means case-insensitive substring
containment of the skill in the candidate text. -/
def req_score_claimed (applicant_text : String) (must_haves : List String) : ℚ :=
  if must_haves = [] then 1
  else
    let atext := norm_text applicant_text
    if atext = "" then 0
    else
      let hits := (must_haves.filter (fun m => strContainsSub atext (pyLower m))).length
      (hits : ℚ) / ((max must_haves.length 1 : ℕ) : ℚ)

/-! ### SignalScorers -/

/-- Clamp a rational into the unit interval, as `max(0.0, min(1.0, x))`. -/
def clamp01 (x : ℚ) : ℚ := max 0 (min 1 x)

/-- Models `pay_score` in `foundational_model.py` (lines 173-182).  A `none`
field stands for an unparseable value, on which Python `float(...)` raises and
the function returns the neutral 0.5. -/
def pay_score (pay_min pay_max target_floor : Option ℚ) : ℚ :=
  match pay_min, pay_max, target_floor with
  | some pmin, some pmax, some tf =>
      let pmid := (pmin + pmax) / 2
      let fl := max 0 tf
      if fl ≤ 0 then 1 else clamp01 (pmid / fl)
  | _, _, _ => 0.5

/-- Models `fast_reply_score` in `foundational_model.py` (lines 185-200).
A parseable probability is clamped into the unit interval; otherwise the
median reply hours are transformed through the supplied exponential map
(`math.exp (-h/12)` in the source, kept abstract as a fixed deterministic
rational approximation since it is transcendental); unparseable or negative
inputs yield the neutral 0.5. -/
def fast_reply_score (expf : ℚ → ℚ) (response_fast_prob median_hours : Option ℚ) : ℚ :=
  match response_fast_prob with
  | some p => clamp01 p
  | none =>
    match median_hours with
    | some h => if h < 0 then 0.5 else expf h
    | none => 0.5

/-- Models `market_load_penalty` in `foundational_model.py` (lines 203-209):
`log1p (max 0 x)` with the transcendental `log1p` kept abstract as a fixed
deterministic map; an unparseable count yields 0. -/
def market_load_penalty (logf : ℚ → ℚ) (active_apps_last_24h : Option ℚ) : ℚ :=
  match active_apps_last_24h with
  | some x => logf (max 0 x)
  | none => 0

/-- Models the interview proxy of `foundational_model.py` line 365:
`max(0.0, min(1.0, 0.8*req + 0.2*sem))`. -/
def interview_proxy (req sem : ℚ) : ℚ := clamp01 (0.8 * req + 0.2 * sem)

/-! ### WeightSet, base score and the claimed weighted engine -/

/-- The named coefficients of a WeightSet, as stored in `weights.json` by
`learn_weights.py`. -/
structure Weights where
  sem_weight : ℚ
  req_weight : ℚ
  pay_weight : ℚ
  fast_reply_weight : ℚ
  load_penalty_weight : ℚ
  interview_weight : ℚ
deriving DecidableEq, Repr

/-- The six subscores computed for one (candidate, job) pair. -/
structure Subscores where
  sem : ℚ
  req : ℚ
  pay : ℚ
  fast : ℚ
  load_pen : ℚ
  interview : ℚ
deriving DecidableEq, Repr

/-- Models the base score of `foundational_model.py` lines 369-376: the
hard-coded transparent combination.  Note that it takes no WeightSet input —
the source never reads `weights.json` here. -/
def base_score (s : Subscores) : ℚ :=
  0.35 * s.fast + 0.25 * s.interview + 0.30 * s.req + 0.05 * s.sem + 0.05 * s.pay
    - 0.05 * s.load_pen

/-- Stated from the specification's words, for comparison with `base_score`:
an engine that combines the six subscores using the coefficients of a given
(possibly learned) WeightSet. -/
def base_score_claimed (w : Weights) (s : Subscores) : ℚ :=
  w.fast_reply_weight * s.fast + w.interview_weight * s.interview + w.req_weight * s.req
    + w.sem_weight * s.sem + w.pay_weight * s.pay - w.load_penalty_weight * s.load_pen

/-- The hard-coded coefficients that `base_score` actually applies. -/
def hardcoded_weights : Weights :=
  { sem_weight := 0.05, req_weight := 0.30, pay_weight := 0.05,
    fast_reply_weight := 0.35, load_penalty_weight := 0.05, interview_weight := 0.25 }

/-- Models `score = base_score + target_boost + cluster_boost` of
`foundational_model.py` line 387. -/
def final_score (s : Subscores) (target_boost cluster_boost : ℚ) : ℚ :=
  base_score s + target_boost + cluster_boost

/-! ### TargetingBoost -/

/-- The targeting fields of an applicant row (`.get(..., "")` defaults). -/
structure Applicant where
  target_employer : String
  target_job_title : String
  target_job_city : String
deriving DecidableEq, Repr

/-- The job-row fields consulted by `targeting_boost`. -/
structure Job where
  employer_name : String
  title : String
  city : String
  fast_reply_certified : Bool
deriving DecidableEq, Repr

/-- Models the employer check of `targeting_boost` (lines 265-268):
bidirectional lowercased substring containment, counted only when the
applicant supplied a non-empty target employer. -/
def employerMatch (a : Applicant) (j : Job) : Bool :=
  a.target_employer ≠ "" &&
    (strContainsSub (pyLower j.employer_name) (pyLower a.target_employer) ||
     strContainsSub (pyLower a.target_employer) (pyLower j.employer_name))

/-- Do two strings share at least one whitespace-separated word? -/
def wordsOverlap (x y : String) : Bool :=
  (pyWords x).any (fun w => (pyWords y).contains w)

/-- Models the title check of `targeting_boost` (lines 270-276): any overlap
between the lowercased word sets. -/
def titleMatch (a : Applicant) (j : Job) : Bool :=
  a.target_job_title ≠ "" && wordsOverlap (pyLower a.target_job_title) (pyLower j.title)

/-- Models the city check of `targeting_boost` (lines 278-281). -/
def cityMatch (a : Applicant) (j : Job) : Bool :=
  a.target_job_city ≠ "" &&
    (strContainsSub (pyLower j.city) (pyLower a.target_job_city) ||
     strContainsSub (pyLower a.target_job_city) (pyLower j.city))

/-- The match counter of `targeting_boost` (lines 263-281). -/
def matchCount (a : Applicant) (j : Job) : ℕ :=
  (if employerMatch a j then 1 else 0) + (if titleMatch a j then 1 else 0)
    + (if cityMatch a j then 1 else 0)

/-- Models `targeting_boost` in `foundational_model.py` (lines 248-292). -/
def targeting_boost (a : Applicant) (j : Job) : ℚ :=
  if a.target_employer = "" ∧ a.target_job_title = "" ∧ a.target_job_city = "" then 0
  else
    let m := matchCount a j
    if m > 0 then
      let b := min 0.10 ((m : ℚ) * 0.035)
      if j.fast_reply_certified then min 0.10 (b + 0.02) else b
    else 0

/-- Stated from the specification's words, for comparison with
`targeting_boost`: `min(0.10, matches * 0.035)` plus an additional 0.02 when
the job is fast-reply certified, still capped at 0.10. -/
def targeting_boost_claimed (a : Applicant) (j : Job) : ℚ :=
  if a.target_employer = "" ∧ a.target_job_title = "" ∧ a.target_job_city = "" then 0
  else
    let b := min 0.10 ((matchCount a j : ℚ) * 0.035)
    if j.fast_reply_certified then min 0.10 (b + 0.02) else b

/-! ### ClusterBooster -/

/-- Models the cluster-count choice of `cluster_jobs_and_find_nearest`
(line 229): `max(2, min(20, int(np.sqrt(n_jobs))))`, where Python `int`
truncates, i.e. the floor square root. -/
def n_clusters_for (n_jobs : ℕ) : ℕ := max 2 (min 20 (Nat.sqrt n_jobs))

/-- Rounded natural square root: `round (sqrt n) = k + 1` exactly when
`n > k^2 + k` for `k = floor (sqrt n)`, since `(k + 1/2)^2 = k^2 + k + 1/4`
and an integer can never sit exactly on that boundary. -/
def roundSqrt (n : ℕ) : ℕ :=
  let k := Nat.sqrt n
  if k * k + k + 1 ≤ n then k + 1 else k

/-- Stated from the specification's words, for comparison with
`n_clusters_for`: `clamp(round(sqrt(n_jobs)), 2, 20)`. -/
def n_clusters_claimed (n_jobs : ℕ) : ℕ := max 2 (min 20 (roundSqrt n_jobs))

/-- Models the skip guard of `cluster_jobs_and_find_nearest` (lines 223-229):
with fewer than 2 jobs no clustering happens (the source returns all-zero
cluster ids and distances, `np.zeros`), otherwise the cluster count is chosen
by the formula. -/
def cluster_result (n_jobs : ℕ) : Option ℕ :=
  if n_jobs < 2 then none else some (n_clusters_for n_jobs)

/-- Models the per-pair cluster boost of `foundational_model.py` lines
382-385: `min(0.05, cluster_distance * 0.05)` when the job's cluster equals
the applicant's nearest cluster (and that is non-negative), else 0. -/
def cluster_boost (job_cluster nearest_cluster : ℤ) (cluster_distance : ℚ) : ℚ :=
  if 0 ≤ nearest_cluster ∧ job_cluster = nearest_cluster then
    min 0.05 (cluster_distance * 0.05)
  else 0

/-! ### WeightLearner (`learn_weights.py`) -/

/-- Value of one stored weight.  Weights are computed with IEEE floats in the
source, so besides finite values (modelled exactly as rationals) a division
can produce NaN (`0.0/0.0`) or infinity (`x/0.0` for `x > 0`). -/
inductive FVal where
  | nan : FVal
  | inf : FVal
  | val : ℚ → FVal
deriving DecidableEq, Repr

/-- IEEE-style division of two finite values: a zero denominator yields NaN
for a zero numerator and (positive) infinity otherwise. -/
def fdiv (a b : ℚ) : FVal :=
  if b = 0 then (if a = 0 then FVal.nan else FVal.inf) else FVal.val (a / b)

/-- Models `normalize_coefficients` in `learn_weights.py` (lines 121-143):
take absolute values and divide by their sum — with no guard against a zero
sum. -/
def normalize_coefficients (coefficients : List ℚ) : List FVal :=
  let abs_coefs := coefficients.map (fun c => |c|)
  let s := abs_coefs.sum
  abs_coefs.map (fun a => fdiv a s)

/-- Ideal (real-arithmetic) counterpart of `normalize_coefficients`, used to
state what the normalized weights are when the coefficient sum is nonzero. -/
def normalize_q (coefficients : List ℚ) : List ℚ :=
  let abs_coefs := coefficients.map (fun c => |c|)
  let s := abs_coefs.sum
  abs_coefs.map (fun a => a / s)

/-- The six default weights of `get_default_weights` (lines 145-154), in the
dictionary order sem, req, pay, fast_reply, load_penalty, interview. -/
def default_weights_list : List ℚ := [0.25, 0.30, 0.15, 0.15, 0.05, 0.10]

/-- The default weights as stored values. -/
def default_weights_fv : List FVal := default_weights_list.map FVal.val

/-- The metadata fields of the output document that the claims consult.  The
trained path stores no `reason` key, modelled as `none`. -/
structure Metadata where
  training_method : String
  reason : Option String
deriving DecidableEq, Repr

/-- The `weights.json` document assembled by `save_weights` (lines 156-171). -/
structure WeightDoc where
  weights : List FVal
  metadata : Metadata
  version : String
deriving DecidableEq, Repr

/-- Models `save_weights` in `learn_weights.py`: the weights are written out
unchanged, with no validation of any kind. -/
def save_weights (weights : List FVal) (metadata : Metadata) : WeightDoc :=
  { weights := weights, metadata := metadata, version := "1.0" }

/-- One joined (event, match) record as consumed by `create_target_variable`:
the interview and hired flags with `fillna(0)` semantics. -/
structure EventRec where
  interview : Option ℚ
  hired : Option ℚ
deriving DecidableEq, Repr

/-- Models the `success` label of `create_target_variable` (lines 47-57):
interviewed or hired, missing values treated as 0. -/
def success (e : EventRec) : Bool :=
  decide (e.interview.getD 0 = 1) || decide (e.hired.getD 0 = 1)

/-- Models the decision structure of `main` in `learn_weights.py` (lines
173-253).  The sklearn logistic-regression fit is not reproducible in a
shallow embedding, so it enters as the abstract function `fit` mapping the
joined records to the fitted coefficient vector; the two degenerate branches
never consult it.  Fewer than 20 joined events: default weights, reason
`insufficient_data_N_events`.  At least 20 events but fewer than 2 positive
labels: `train_logistic_model` returns `None` before fitting anything and
`main` stores the default weights with reason `training_failed`.  Otherwise
the fitted coefficients are normalized and stored. -/
def learn_weights_main (fit : List EventRec → List ℚ) (events : List EventRec) : WeightDoc :=
  let total_events := events.length
  let positives := (events.filter (fun e => success e)).length
  if total_events < 20 then
    save_weights default_weights_fv
      { training_method := "default",
        reason := some ("insufficient_data_" ++ toString total_events ++ "_events") }
  else if positives < 2 then
    save_weights default_weights_fv
      { training_method := "default", reason := some "training_failed" }
  else
    save_weights (normalize_coefficients (fit events))
      { training_method := "logistic_regression", reason := none }

/-! ### ScoringEngine pipeline (`main` of `foundational_model.py`) -/

/-- The per-candidate inputs of the scoring loop: the assembled profile text,
the parsed pay floor and the targeting fields. -/
structure CandRow where
  atext : String
  target_pay_min : Option ℚ
  targeting : Applicant

/-- The per-job inputs of the scoring loop. -/
structure JobRow where
  jb : Job
  must_haves : List String
  pay_min : Option ℚ
  pay_max : Option ℚ
  response_fast_prob : Option ℚ
  response_median_reply_hours : Option ℚ
  active_apps_last_24h : Option ℚ

/-- The full input of one engine run: candidate and job rows, the cosine
matrix produced by the (deterministic) embedding step, the cluster
assignments produced by the fixed-seed k-means step, and the two fixed
transcendental maps used by the fast-reply and load-penalty subscores. -/
structure EngineIn where
  cands : List CandRow
  jobs : List JobRow
  sem : ℕ → ℕ → ℚ
  job_cluster : ℕ → ℤ
  nearest_cluster : ℕ → ℤ
  cluster_distance : ℕ → ℚ
  expf : ℚ → ℚ
  logf : ℚ → ℚ

/-- The final score of one (candidate, job) pair, composing every subscore
exactly as lines 354-387 of `foundational_model.py` do. -/
def pair_final (e : EngineIn) (ai ji : ℕ) (c : CandRow) (j : JobRow) : ℚ :=
  let sem := e.sem ai ji
  let req := req_score c.atext j.must_haves
  let pay := pay_score j.pay_min j.pay_max c.target_pay_min
  let fast := fast_reply_score e.expf j.response_fast_prob j.response_median_reply_hours
  let load_pen := market_load_penalty e.logf j.active_apps_last_24h
  let interview := interview_proxy req sem
  final_score ⟨sem, req, pay, fast, load_pen, interview⟩
    (targeting_boost c.targeting j.jb)
    (cluster_boost (e.job_cluster ji) (e.nearest_cluster ai) (e.cluster_distance ai))

/-- The detailed per-pair score table (one inner list per candidate). -/
def detailed_scores (e : EngineIn) : List (List ℚ) :=
  e.cands.enum.map (fun p => e.jobs.enum.map (fun q => pair_final e p.1 q.1 p.2 q.2))

/-- Models the best-job selection loop (lines 344-448): `best_score` starts
at -1e9 and a job becomes the new best exactly when its score is strictly
greater, so ties keep the first-seen job and a candidate whose scores all
stay below -1e9 ends with no match. -/
def select_best (scores : List ℚ) : Option (ℕ × ℚ) :=
  scores.enum.foldl
    (fun best p =>
      match best with
      | none => if p.2 > -1000000000 then some p else none
      | some q => if p.2 > q.2 then some p else some q)
    none

/-- One full engine run: the detailed score table plus the best match per
candidate. -/
def run_engine (e : EngineIn) : List (List ℚ) × List (Option (ℕ × ℚ)) :=
  (detailed_scores e, (detailed_scores e).map select_best)

/-! ### Shared helper lemmas -/

/-- Summing the pointwise quotients of a list by a fixed denominator equals
the quotient of the sum. -/
theorem list_sum_map_div (l : List ℚ) (s : ℚ) :
    (l.map (fun a => a / s)).sum = l.sum / s := by
  induction l with
  | nil => simp
  | cons x t ih => simp [ih, add_div]

/-- Every list of characters starts with itself. -/
theorem listStartsWith_self (l : List Char) : listStartsWith l l = true := by
  induction l with
  | nil => rfl
  | cons c t ih => simp [listStartsWith, ih]

/-- Every string contains itself as a substring. -/
theorem strContainsSub_self (s : String) : strContainsSub s s = true := by
  unfold strContainsSub
  cases h : s.data with
  | nil => rfl
  | cons c t => simp [listContainsSeq, listStartsWith_self]

/-- Evaluation rule for the floor square root at concrete inputs. -/
theorem nat_sqrt_eval (k a n : ℕ) (hn : n = k * k + a) (h : a ≤ k + k) :
    Nat.sqrt n = k := hn ▸ Nat.sqrt_add_eq k h

/-- The requirement coverage is never negative. -/
theorem req_score_nonneg (t : String) (l : List String) : 0 ≤ req_score t l := by
  simp only [req_score]
  split_ifs
  · norm_num
  · norm_num
  · positivity

/-- The requirement coverage never exceeds 1. -/
theorem req_score_le_one (t : String) (l : List String) : req_score t l ≤ 1 := by
  simp only [req_score]
  split_ifs
  · norm_num
  · norm_num
  · have hfil : (l.filter (fun m => m ≠ "" && strContainsSub (norm_text t) m)).length
        ≤ l.length := List.length_filter_le _ _
    have hden : (0 : ℚ) < ((max l.length 1 : ℕ) : ℚ) := by
      have h1 : (1 : ℕ) ≤ max l.length 1 := le_max_right _ _
      exact_mod_cast Nat.lt_of_lt_of_le Nat.zero_lt_one h1
    rw [div_le_one hden]
    exact_mod_cast le_trans hfil (le_max_left _ _)

/-- A sum of absolute values over an all-zero list is zero, elementwise. -/
theorem map_abs_fdiv_zero (l : List ℚ) (h : ∀ c ∈ l, c = 0) :
    l.map (fun c => fdiv |c| 0) = List.replicate l.length FVal.nan := by
  induction l with
  | nil => rfl
  | cons c t ih =>
      have hc : c = 0 := h c (List.mem_cons_self c t)
      have ht : ∀ x ∈ t, x = 0 := fun x hx => h x (List.mem_cons_of_mem c hx)
      rw [List.map_cons, ih ht, List.length_cons, List.replicate_succ]
      congr 1
      simp [hc, fdiv]

/-- Claim C3: every WeightSet the WeightLearner writes — the default set,
or one obtained by normalizing the absolute values of fitted
logistic-regression coefficients whose magnitudes do not all vanish — has
non-negative named weights whose magnitudes sum to exactly 1 (the rational
model realizes "within floating-point tolerance" exactly). -/
theorem weightset_sum_one :
    (default_weights_list.sum = 1 ∧ ∀ w ∈ default_weights_list, 0 ≤ w) ∧
    ∀ coefficients : List ℚ,
      (coefficients.map (fun c => |c|)).sum ≠ 0 →
      normalize_coefficients coefficients = (normalize_q coefficients).map FVal.val ∧
      (normalize_q coefficients).sum = 1 ∧
      ∀ x ∈ normalize_q coefficients, 0 ≤ x := by
  constructor
  · constructor
    · norm_num [default_weights_list]
    · intro w hw
      simp only [default_weights_list, List.mem_cons, List.not_mem_nil, or_false] at hw
      rcases hw with h | h | h | h | h | h <;> rw [h] <;> norm_num
  · intro coefficients hs
    have habs : ∀ x ∈ coefficients.map (fun c => |c|), 0 ≤ x := by
      intro x hx
      obtain ⟨c, _, rfl⟩ := List.mem_map.1 hx
      exact abs_nonneg c
    have hs0 : 0 ≤ (coefficients.map (fun c => |c|)).sum := List.sum_nonneg habs
    refine ⟨?_, ?_, ?_⟩
    · simp only [normalize_coefficients, normalize_q, List.map_map]
      congr 1
      funext a
      simp [fdiv, hs, Function.comp]
    · simp only [normalize_q]
      rw [list_sum_map_div]
      exact div_self hs
    · intro x hx
      simp only [normalize_q] at hx
      obtain ⟨a, ha, rfl⟩ := List.mem_map.1 hx
      exact div_nonneg (habs a ha) hs0

/-- Witness for claim C3 at the coefficient vector (1, 2, 3, 4, 5, 6). -/
theorem weightset_sum_one_witness :
    (([1, 2, 3, 4, 5, 6] : List ℚ).map (fun c => |c|)).sum ≠ 0 ∧
    (normalize_q [1, 2, 3, 4, 5, 6]).sum = 1 :=
  ⟨by norm_num, (weightset_sum_one.2 [1, 2, 3, 4, 5, 6] (by norm_num)).2.1⟩

/-- Claim C10: `normalize_coefficients` has no zero guard — on an all-zero
coefficient vector every absolute coefficient is 0, their sum is 0, each
division is the IEEE `0.0/0.0 = NaN`, and `save_weights` persists these NaN
weights unchecked. -/
theorem nan_weights_persisted :
    ∀ (coefficients : List ℚ) (m : Metadata),
      (∀ c ∈ coefficients, c = 0) →
      (save_weights (normalize_coefficients coefficients) m).weights
        = List.replicate coefficients.length FVal.nan := by
  intro coefficients m h
  have hs : (coefficients.map (fun c => |c|)).sum = 0 := by
    apply List.sum_eq_zero
    intro x hx
    obtain ⟨c, hc, rfl⟩ := List.mem_map.1 hx
    simp [h c hc]
  show normalize_coefficients coefficients = _
  simp only [normalize_coefficients]
  rw [hs, List.map_map]
  have hcomp : ((fun a => fdiv a 0) ∘ fun c => |c|) = fun c => fdiv (|c|) 0 := rfl
  rw [hcomp, map_abs_fdiv_zero coefficients h]

/-- Witness for claim C10 at the all-zero six-coefficient vector. -/
theorem nan_weights_persisted_witness :
    (save_weights (normalize_coefficients [0, 0, 0, 0, 0, 0])
        ⟨"logistic_regression", none⟩).weights = List.replicate 6 FVal.nan :=
  nan_weights_persisted [0, 0, 0, 0, 0, 0] ⟨"logistic_regression", none⟩ (by simp)

/-- The first degenerate branch of `learn_weights_main`. -/
theorem learn_main_lt20 (fit : List EventRec → List ℚ) (events : List EventRec)
    (h : events.length < 20) :
    learn_weights_main fit events =
      save_weights default_weights_fv
        { training_method := "default",
          reason := some ("insufficient_data_" ++ toString events.length ++ "_events") } := by
  simp only [learn_weights_main]
  rw [if_pos h]

/-- The second degenerate branch of `learn_weights_main`. -/
theorem learn_main_too_few_pos (fit : List EventRec → List ℚ) (events : List EventRec)
    (h1 : 20 ≤ events.length) (h2 : (events.filter (fun e => success e)).length < 2) :
    learn_weights_main fit events =
      save_weights default_weights_fv
        { training_method := "default", reason := some "training_failed" } := by
  simp only [learn_weights_main]
  rw [if_neg (by omega), if_pos h2]

/-- Claim C2 (amended): with fewer than 20 joined events the learner writes
the default WeightSet with reason `insufficient_data_N_events`; with at least
20 events but fewer than 2 positive labels it also writes the default
WeightSet without fitting anything, but the recorded reason is
`training_failed`, not an insufficient-data reason.  In both branches the
output is a fixed document that never consults the fitting procedure. -/
theorem learner_degenerate_branches :
    ∀ (fit : List EventRec → List ℚ) (events : List EventRec),
      (events.length < 20 →
        learn_weights_main fit events =
          save_weights default_weights_fv
            { training_method := "default",
              reason := some ("insufficient_data_" ++ toString events.length ++ "_events") }) ∧
      (20 ≤ events.length → (events.filter (fun e => success e)).length < 2 →
        learn_weights_main fit events =
          save_weights default_weights_fv
            { training_method := "default", reason := some "training_failed" }) :=
  fun fit events =>
    ⟨learn_main_lt20 fit events, learn_main_too_few_pos fit events⟩

/-- Witness for claim C2 (amended) at the empty event list. -/
theorem learner_degenerate_branches_witness :
    learn_weights_main (fun _ => []) [] =
      save_weights default_weights_fv
        { training_method := "default", reason := some "insufficient_data_0_events" } :=
  (learner_degenerate_branches (fun _ => []) []).1 (by norm_num)

/-- A joined data set of exactly 20 events with exactly one positive label. -/
def ev20 : List EventRec := ⟨some 1, some 0⟩ :: List.replicate 19 ⟨some 0, some 0⟩

/-- Counterexample to claim C2 as stated: on 20 joined events with a single
positive label the learner does emit the default WeightSet without fitting,
but the recorded reason is `training_failed`, not an insufficient-data
reason. -/
theorem learner_degenerate_cex :
    ev20.length = 20 ∧
    (ev20.filter (fun e => success e)).length = 1 ∧
    (learn_weights_main (fun _ => []) ev20).weights = default_weights_fv ∧
    (learn_weights_main (fun _ => []) ev20).metadata.reason = some "training_failed" ∧
    some "training_failed" ≠ some ("insufficient_data_" ++ toString ev20.length ++ "_events") := by
  have hmain := learn_main_too_few_pos (fun _ => []) ev20 (by decide) (by decide)
  refine ⟨by decide, by decide, ?_, ?_, by decide⟩
  · rw [hmain]
    rfl
  · rw [hmain]
    rfl

/-! ### Claim C1: which weights the scoring engine actually applies -/

/-- The WeightSet content of `get_default_weights` in `learn_weights.py`,
i.e. the coefficients that `default_weights_fv` stores. -/
def learner_default_wset : Weights :=
  { sem_weight := 0.25, req_weight := 0.30, pay_weight := 0.15,
    fast_reply_weight := 0.15, load_penalty_weight := 0.05, interview_weight := 0.10 }

/-- A subscore vector with every unit-interval subscore at 1 and no load. -/
def s_ones : Subscores := ⟨1, 1, 1, 1, 0, 1⟩

/-- Counterexample to claim C1 as stated: the WeightLearner does persist a
WeightSet (here the default document it writes on an empty event log, whose
stored coefficients are `learner_default_wset`), but `base_score` — which
takes no WeightSet input at all — still combines the subscores with the
hard-coded coefficients: on `s_ones` it yields 1, whereas an engine that
substituted the persisted six coefficients would yield 0.95. -/
theorem engine_ignores_learned_weights_cex :
    (learn_weights_main (fun _ => []) []).weights = default_weights_fv ∧
    default_weights_fv =
      [FVal.val learner_default_wset.sem_weight,
       FVal.val learner_default_wset.req_weight,
       FVal.val learner_default_wset.pay_weight,
       FVal.val learner_default_wset.fast_reply_weight,
       FVal.val learner_default_wset.load_penalty_weight,
       FVal.val learner_default_wset.interview_weight] ∧
    base_score s_ones = 1 ∧
    base_score_claimed learner_default_wset s_ones = 0.95 ∧
    base_score s_ones ≠ base_score_claimed learner_default_wset s_ones := by
  refine ⟨rfl, rfl, ?_, ?_, ?_⟩
  · norm_num [base_score, s_ones]
  · norm_num [base_score_claimed, learner_default_wset, s_ones]
  · norm_num [base_score, base_score_claimed, learner_default_wset, s_ones]

/-- Claim C1 (amended): the ScoringEngine always computes `base_score` with
the fixed hard-coded coefficients (0.35 fast-reply, 0.25 interview-proxy,
0.30 requirement, 0.05 semantic, 0.05 pay, minus 0.05 load penalty); it never
loads the persisted WeightSet (only the scoreboard generator reads
`weights.json`).  The targeting boost and the cluster boost remain fixed
additive terms outside this combination. -/
theorem engine_hardcoded_weights :
    ∀ (s : Subscores) (tb cb : ℚ),
      base_score s = base_score_claimed hardcoded_weights s ∧
      final_score s tb cb = base_score_claimed hardcoded_weights s + tb + cb := by
  intro s tb cb
  constructor
  · simp [base_score, base_score_claimed, hardcoded_weights]
  · simp [final_score, base_score, base_score_claimed, hardcoded_weights]

/-! ### Claim C4: cluster count and the small-batch skip -/

/-- Counterexample to claim C4 as stated: at 7 jobs the source truncates
`sqrt(7) = 2.645…` to 2 clusters, while rounding — as the claim specifies —
would give 3. -/
theorem cluster_count_cex :
    n_clusters_for 7 = 2 ∧ n_clusters_claimed 7 = 3 ∧
    n_clusters_for 7 ≠ n_clusters_claimed 7 := by
  have h7 : Nat.sqrt 7 = 2 := nat_sqrt_eval 2 3 7 rfl (by norm_num)
  refine ⟨?_, ?_, ?_⟩ <;> simp [n_clusters_for, n_clusters_claimed, roundSqrt, h7]

/-- Claim C4 (amended): for a batch of at least 2 jobs the cluster count is
`clamp(floor(sqrt(n_jobs)), 2, 20)` — truncation, not rounding — which is
always between 2 and 20 and equals `floor(sqrt(n_jobs))` exactly on the
unclamped range `4 ≤ n_jobs ≤ 440`; with fewer than 2 jobs clustering is
skipped, the source returns all-zero cluster ids and distances, and the
resulting per-pair cluster boost is 0. -/
theorem cluster_count_amended :
    ∀ n : ℕ,
      n_clusters_for n = max 2 (min 20 (Nat.sqrt n)) ∧
      2 ≤ n_clusters_for n ∧
      n_clusters_for n ≤ 20 ∧
      (4 ≤ n → n ≤ 440 → n_clusters_for n = Nat.sqrt n) ∧
      (n < 2 → cluster_result n = none) ∧
      cluster_boost 0 0 0 = 0 := by
  intro n
  refine ⟨rfl, le_max_left _ _, ?_, ?_, ?_, ?_⟩
  · exact max_le (by norm_num) (min_le_left _ _)
  · intro h4 h440
    have hlo : 2 ≤ Nat.sqrt n := Nat.le_sqrt.2 (by omega)
    have hhi : Nat.sqrt n ≤ 20 := by
      have : Nat.sqrt n < 21 := Nat.sqrt_lt.2 (by omega)
      omega
    unfold n_clusters_for
    rw [min_eq_right hhi, max_eq_right hlo]
  · intro h
    simp [cluster_result, h]
  · norm_num [cluster_boost, min_def]

/-- Witness for claim C4 (amended) at 9 jobs and at a single job. -/
theorem cluster_count_amended_witness :
    n_clusters_for 9 = Nat.sqrt 9 ∧ cluster_result 1 = none :=
  ⟨(cluster_count_amended 9).2.2.2.1 (by norm_num) (by norm_num),
   (cluster_count_amended 1).2.2.2.2.1 (by norm_num)⟩

/-! ### Claim C5: requirement coverage semantics -/

/-- Counterexample to claim C5 as stated: the fallback lowercases only the
candidate text, not the skill tokens, so matching is not case-insensitive in
the skill: the skill "Python" is not found in the candidate text "Python"
(normalized to "python"), although case-insensitive substring containment
would count it as met. -/
theorem req_score_case_cex :
    req_score "Python" ["Python"] = 0 ∧
    req_score_claimed "Python" ["Python"] = 1 ∧
    req_score "Python" ["Python"] ≠ req_score_claimed "Python" ["Python"] := by
  refine ⟨?_, ?_, ?_⟩
  · simp +decide [req_score]
  · simp +decide [req_score_claimed]
  · simp +decide [req_score, req_score_claimed]

/-- Claim C5 (amended): `req_score` returns 1 on an empty required-skill
list; 0 when the list is non-empty and the normalized candidate text is
empty; and otherwise the fraction of required skills met, where met means the
skill token is non-empty and occurs verbatim as a substring of the lowercased
candidate text (case-insensitive containment exactly when the tokens are
already lowercase, as the job-field parser produces them).  The result is
always a coverage ratio in [0, 1]. -/
theorem req_score_amended :
    ∀ (t : String) (l : List String),
      (l = [] → req_score t l = 1) ∧
      (l ≠ [] → norm_text t = "" → req_score t l = 0) ∧
      (l ≠ [] → norm_text t ≠ "" →
        req_score t l =
          ((l.filter (fun m => m ≠ "" && strContainsSub (norm_text t) m)).length : ℚ)
            / (l.length : ℚ)) ∧
      0 ≤ req_score t l ∧ req_score t l ≤ 1 := by
  intro t l
  refine ⟨?_, ?_, ?_, req_score_nonneg t l, req_score_le_one t l⟩
  · intro h
    simp [req_score, h]
  · intro hl ht
    simp [req_score, hl, ht]
  · intro hl ht
    have hlen : max l.length 1 = l.length :=
      max_eq_left (Nat.one_le_iff_ne_zero.2 (by simpa using hl))
    simp only [req_score, if_neg hl, if_neg ht, hlen]

/-- Witness for claim C5 (amended): empty candidate text against a non-empty
requirement list scores 0. -/
theorem req_score_amended_witness : req_score "" ["python"] = 0 :=
  (req_score_amended "" ["python"]).2.1 (by simp) (by decide)

/-! ### Claim C7: pay fit -/

/-- Claim C7: `pay_score` equals `clamp01` of the pay midpoint over the floor
when the floor is positive, returns 1 when the parsed floor is not positive,
returns the neutral 0.5 whenever any pay field is unparseable, and in
particular pay range [28, 35] against floor 25 scores exactly 1. -/
theorem pay_score_spec :
    ∀ pmin pmax tf : ℚ,
      (0 < tf →
        pay_score (some pmin) (some pmax) (some tf) = clamp01 (((pmin + pmax) / 2) / tf)) ∧
      (tf ≤ 0 → pay_score (some pmin) (some pmax) (some tf) = 1) ∧
      pay_score (some pmin) (some pmax) none = 0.5 ∧
      pay_score none (some pmax) (some tf) = 0.5 ∧
      pay_score (some pmin) none (some tf) = 0.5 ∧
      pay_score (some 28) (some 35) (some 25) = 1 := by
  intro pmin pmax tf
  refine ⟨?_, ?_, rfl, rfl, rfl, ?_⟩
  · intro h
    simp only [pay_score]
    rw [max_eq_right h.le, if_neg (not_le.2 h)]
  · intro h
    simp only [pay_score]
    rw [max_eq_left h, if_pos le_rfl]
  · simp only [pay_score]
    norm_num [clamp01, min_def, max_def]

/-- Witness for claim C7 at the spec's scenario (28, 35, 25). -/
theorem pay_score_spec_witness :
    pay_score (some 28) (some 35) (some 25) = clamp01 (((28 + 35) / 2) / 25) :=
  (pay_score_spec 28 35 25).1 (by norm_num)

/-! ### Claim C8: interview proxy -/

/-- Claim C8: the interview proxy equals `0.8 * req_score + 0.2 * sem_score`.
The source clamps the combination into [0, 1]; since the requirement coverage
always lies in [0, 1], the clamp is the identity whenever the semantic
similarity does too (which holds for the non-negative TF-IDF fallback
cosines), so on that range the subscore is exactly the stated combination. -/
theorem interview_proxy_spec :
    ∀ (t : String) (l : List String) (sem : ℚ),
      0 ≤ sem → sem ≤ 1 →
      interview_proxy (req_score t l) sem = 0.8 * req_score t l + 0.2 * sem := by
  intro t l sem h0 h1
  have hr0 : 0 ≤ req_score t l := req_score_nonneg t l
  have hr1 : req_score t l ≤ 1 := req_score_le_one t l
  unfold interview_proxy clamp01
  rw [min_eq_right (by nlinarith), max_eq_right (by nlinarith)]

/-- Witness for claim C8 at an empty requirement list and zero similarity. -/
theorem interview_proxy_spec_witness :
    interview_proxy (req_score "" []) 0 = 0.8 * req_score "" [] + 0.2 * 0 :=
  interview_proxy_spec "" [] 0 le_rfl zero_le_one

/-! ### Claim C6: targeting boost -/

/-- With all three targeting fields empty no per-field match can count. -/
theorem matchCount_empty (a : Applicant) (j : Job)
    (h1 : a.target_employer = "") (h2 : a.target_job_title = "")
    (h3 : a.target_job_city = "") : matchCount a j = 0 := by
  simp [matchCount, employerMatch, titleMatch, cityMatch, h1, h2, h3]

/-- The boost formula branch taken when at least one field matches. -/
theorem targeting_boost_of_pos (a : Applicant) (j : Job)
    (h : 1 ≤ matchCount a j) :
    targeting_boost a j =
      (if j.fast_reply_certified then
        min 0.10 (min 0.10 ((matchCount a j : ℚ) * 0.035) + 0.02)
      else min 0.10 ((matchCount a j : ℚ) * 0.035)) := by
  have hne : ¬(a.target_employer = "" ∧ a.target_job_title = "" ∧ a.target_job_city = "") := by
    intro hall
    rw [matchCount_empty a j hall.1 hall.2.1 hall.2.2] at h
    omega
  have hpos : matchCount a j > 0 := h
  simp only [targeting_boost, if_neg hne]
  rw [if_pos hpos]

/-- A positive number of matches forces a boost of at least 0.035. -/
theorem targeting_boost_lb (a : Applicant) (j : Job) (h : 1 ≤ matchCount a j) :
    0.035 ≤ targeting_boost a j := by
  have hm : (0.035 : ℚ) ≤ (matchCount a j : ℚ) * 0.035 := by
    have hc : (1 : ℚ) ≤ (matchCount a j : ℚ) := by exact_mod_cast h
    nlinarith
  have hb : (0.035 : ℚ) ≤ min 0.10 ((matchCount a j : ℚ) * 0.035) :=
    le_min (by norm_num) hm
  rw [targeting_boost_of_pos a j h]
  split_ifs
  · exact le_min (by norm_num) (by linarith [hb])
  · exact hb

/-- Counterexample to claim C6 as stated: an applicant who supplied a target
employer that matches nothing gets 0 from the source even when the job is
fast-reply certified, whereas the claim's formula
`min(0.10, m*0.035) + 0.02 (capped)` yields 0.02 at `m = 0`. -/
theorem targeting_certified_cex :
    matchCount ⟨"acme", "", ""⟩ ⟨"zzz corp", "", "", true⟩ = 0 ∧
    targeting_boost ⟨"acme", "", ""⟩ ⟨"zzz corp", "", "", true⟩ = 0 ∧
    targeting_boost_claimed ⟨"acme", "", ""⟩ ⟨"zzz corp", "", "", true⟩ = 0.02 ∧
    targeting_boost ⟨"acme", "", ""⟩ ⟨"zzz corp", "", "", true⟩ ≠
      targeting_boost_claimed ⟨"acme", "", ""⟩ ⟨"zzz corp", "", "", true⟩ := by
  have hm : matchCount ⟨"acme", "", ""⟩ ⟨"zzz corp", "", "", true⟩ = 0 := by decide
  refine ⟨hm, ?_, ?_, ?_⟩
  · simp +decide [targeting_boost]
  · simp +decide [targeting_boost_claimed, matchCount]
    norm_num [min_def]
  · simp +decide [targeting_boost, targeting_boost_claimed, matchCount]
    norm_num [min_def]

/-- Claim C6 (amended): no targeting data gives boost 0; targeting data with
zero field matches also gives boost 0 — the certification bonus of 0.02 is
applied only when at least one field matches; with `m ≥ 1` matches the boost
is `min(0.10, m*0.035)`, plus 0.02 capped at 0.10 when the job is fast-reply
certified; it is then at least 0.035 — in particular when the supplied target
employer equals the job's employer up to case — and never exceeds 0.10. -/
theorem targeting_boost_amended :
    ∀ (a : Applicant) (j : Job),
      (a.target_employer = "" ∧ a.target_job_title = "" ∧ a.target_job_city = "" →
        targeting_boost a j = 0) ∧
      (matchCount a j = 0 → targeting_boost a j = 0) ∧
      (1 ≤ matchCount a j →
        targeting_boost a j =
          (if j.fast_reply_certified then
            min 0.10 (min 0.10 ((matchCount a j : ℚ) * 0.035) + 0.02)
          else min 0.10 ((matchCount a j : ℚ) * 0.035))) ∧
      (1 ≤ matchCount a j → 0.035 ≤ targeting_boost a j) ∧
      targeting_boost a j ≤ 0.10 ∧
      (a.target_employer ≠ "" → pyLower a.target_employer = pyLower j.employer_name →
        0.035 ≤ targeting_boost a j) := by
  intro a j
  refine ⟨?_, ?_, targeting_boost_of_pos a j, targeting_boost_lb a j, ?_, ?_⟩
  · intro hall
    simp [targeting_boost, hall.1, hall.2.1, hall.2.2]
  · intro hm
    simp [targeting_boost, hm]
  · simp only [targeting_boost]
    split_ifs
    · norm_num
    · exact min_le_left _ _
    · exact min_le_left _ _
    · norm_num
  · intro hne heq
    apply targeting_boost_lb
    have hemp : employerMatch a j = true := by
      simp only [employerMatch, heq, Bool.and_eq_true, Bool.or_eq_true]
      exact ⟨by simpa using hne, Or.inl (strContainsSub_self _)⟩
    simp only [matchCount, hemp, if_true]
    omega

/-- Witness for claim C6 (amended): a target employer contained in the job's
employer name earns at least the single-match boost. -/
theorem targeting_boost_amended_witness :
    0.035 ≤ targeting_boost ⟨"acme", "", ""⟩ ⟨"acme corp", "", "", false⟩ :=
  (targeting_boost_amended ⟨"acme", "", ""⟩ ⟨"acme corp", "", "", false⟩).2.2.2.1 (by decide)

/-! ### Claim C9: determinism of the engine -/

/-- Claim C9: one engine run is a pure function of its inputs — the candidate
and job rows, the cosine matrix produced by the deterministic embedding step
(TF-IDF with a fixed vocabulary in the fallback), the fixed-seed k-means
cluster assignments, and the two fixed transcendental maps — so two runs on
identical inputs produce identical detailed score tables and identical best
matches per candidate. -/
theorem engine_idempotent :
    ∀ e1 e2 : EngineIn, e1 = e2 → run_engine e1 = run_engine e2 :=
  fun _ _ h => h ▸ rfl

/-- A small concrete engine input: one candidate, one job. -/
def engine_example : EngineIn :=
  { cands := [⟨"python developer", some 25, ⟨"", "", ""⟩⟩],
    jobs := [⟨⟨"acme", "dev", "nyc", false⟩, ["python"], some 28, some 35,
             some 0.9, none, some 0⟩],
    sem := fun _ _ => 1 / 2,
    job_cluster := fun _ => 0,
    nearest_cluster := fun _ => 0,
    cluster_distance := fun _ => 1 / 2,
    expf := fun _ => 1 / 2,
    logf := fun _ => 0 }

/-- Witness for claim C9 at the concrete one-candidate, one-job input. -/
theorem engine_idempotent_witness :
    run_engine engine_example = run_engine engine_example :=
  engine_idempotent engine_example engine_example rfl

